import Mathlib

/-!
Shallow embedding of `spacy/cli/validate.py`: the `validate` CLI subcommand
that checks installed spaCy models against a remote compatibility table,
together with its helper functions `is_compat`, `reformat_version`,
`get_model_links`, `get_model_pkgs`, `get_model_row`, `get_row` and
`is_model_path`.

Strings are Lean `String`s; Python `dict`s are association lists
(`List (String × _)`) with `List.lookup` as key lookup (Python dicts have
unique keys, so the first binding is the binding); Python `set`s are lists
whose membership is what matters.  The filesystem, the installed-package
registry and the HTTP response are explicit inputs.  Process-terminating
helpers (`prints(..., exits=n)`) and the uncaught `KeyError` of a failed
dict subscript are modelled as distinct terminal outcomes.
-/

namespace SpacyValidate

/-- One step of Python's `str.replace(old, new)` scan, fuelled so that the
recursion is structural: scan left to right, on a match of `old` emit `new`
and skip `old.length` characters, otherwise keep one character.  `fuel`
bounds the number of scan steps; `replaceAll` supplies `s.length`, which is
always enough (a match consumes at least one character when `old ≠ []`,
and `old = []` never matches because of the guard). -/
def replaceAllGo (old new : List Char) : Nat → List Char → List Char
  | _, [] => []
  | 0, s => s
  | fuel + 1, c :: rest =>
    if old.isPrefixOf (c :: rest) && !old.isEmpty then
      new ++ replaceAllGo old new fuel ((c :: rest).drop old.length)
    else
      c :: replaceAllGo old new fuel rest

/-- Python `s.replace(old, new)` for a non-empty `old`: replace every
(leftmost, non-overlapping) occurrence of `old` in `s` by `new`. -/
def replaceAll (old new s : String) : String :=
  ⟨replaceAllGo old.data new.data s.data.length s.data⟩

/-- Python `s.endswith(suf)`. -/
def strEndsWith (s suf : String) : Bool :=
  suf.data.isSuffixOf s.data

/-- Substring containment on character lists: `sub` occurs contiguously in
the list (at the front, or anywhere in the tail). -/
def containsSub (sub : List Char) : List Char → Bool
  | [] => sub.isEmpty
  | c :: rest => sub.isPrefixOf (c :: rest) || containsSub sub rest

/-- Python `sub in s` (substring containment). -/
def strContainsSub (s sub : String) : Bool :=
  containsSub sub.data s.data

/-- `reformat_version` from `validate.py`: reformat old versions ending on
`-alpha` to match pip format. -/
def reformat_version (version : String) : String :=
  if strEndsWith version "-alpha" then replaceAll "-alpha" "a0" version
  else replaceAll "-alpha" "a" version

/-- `is_compat` from `validate.py`: `name in compat and version in
compat[name]`, where `compat` is the sub-map of the current spaCy version. -/
def is_compat (compat : List (String × List String)) (name version : String) : Bool :=
  match compat.lookup name with
  | none => false
  | some vs => vs.contains version

/-- The fields of a model's `meta.json` that `validate.py` reads. -/
structure Meta where
  lang : String
  name : String
  version : String
deriving DecidableEq

/-- An immediate child of the spaCy data directory, as `validate.py` sees it:
its last path component (`parts[-1]`), whether it is a directory, and the
decoded `meta.json` if that file exists. -/
structure PathEntry where
  name : String
  isDir : Bool
  meta : Option Meta
deriving DecidableEq

/-- The per-model record `{'name': ..., 'version': ..., 'compat': ...}`
built by both scanners. -/
structure Entry where
  name : String
  version : String
  compat : Bool
deriving DecidableEq

/-- `is_model_path` from `validate.py`: a directory whose last component is
not a cache directory and not hidden. -/
def is_model_path (p : PathEntry) : Bool :=
  p.isDir && !(["cache", "pycache", "__pycache__"].contains p.name)
    && !(".".data.isPrefixOf p.name.data)

/-- `get_model_links` from `validate.py`.  `data_path` is `none` when
`get_data_path()` is falsy (modelled from the spec: no data directory yields
an empty mapping).  Entries without a `meta.json` are skipped; an entry's
key is the directory name, its record is built from the metadata. -/
def get_model_links (compat : List (String × List String))
    (data_path : Option (List PathEntry)) : List (String × Entry) :=
  match data_path with
  | none => []
  | some ps =>
    (ps.filter is_model_path).filterMap fun p =>
      match p.meta with
      | none => none
      | some meta =>
        some (p.name,
          { name := meta.lang ++ "_" ++ meta.name,
            version := meta.version,
            compat := is_compat compat (meta.lang ++ "_" ++ meta.name) meta.version })

/-- `get_model_pkgs` from `validate.py`.  `working_set` models
`pkg_resources.working_set.by_key` as (package name, version) pairs
(modelled from the spec: the installed-package registry is an enumerable
set of (name, version) pairs).  A package is kept iff its name with every
hyphen replaced by an underscore is a known model name. -/
def get_model_pkgs (compat : List (String × List String)) (all_models : List String)
    (working_set : List (String × String)) : List (String × Entry) :=
  working_set.filterMap fun pkg =>
    let package := replaceAll "-" "_" pkg.1
    if all_models.contains package then
      some (pkg.1,
        { name := package, version := pkg.2,
          compat := is_compat compat package pkg.2 })
    else none

/-- Python `'{:<w}'.format(s)`: pad `s` on the right with spaces to width
`w` (strings longer than `w` are unchanged). -/
def padTo (w : Nat) (s : String) : String :=
  s ++ ⟨List.replicate (w - s.data.length) ' '⟩

/-- `get_row` from `validate.py`: the row template
`'    {:<10}' + '  {:<20}' * 4`, applied to five strings. -/
def get_row (a b c d e : String) : String :=
  "    " ++ padTo 10 a ++ "  " ++ padTo 20 b ++ "  " ++ padTo 20 c
    ++ "  " ++ padTo 20 d ++ "  " ++ padTo 20 e

/-- The red colour template of `get_model_row`. -/
def tpl_red (s : String) : String := "\x1b[38;5;1m" ++ s ++ "\x1b[0m"

/-- The green colour template of `get_model_row`. -/
def tpl_green (s : String) : String := "\x1b[38;5;2m" ++ s ++ "\x1b[0m"

/-- `get_model_row` from `validate.py`.  For an incompatible entry the hint
column is `'--> ' + compat.get(name, ['n/a'])[0]`: indexing `[0]` raises
`IndexError` when the name is mapped to an empty list, which the embedding
returns as `none`. -/
def get_model_row (compat : List (String × List String)) (name : String)
    (data : Entry) (type : String) : Option String :=
  if data.compat then
    some (get_row type name data.name (tpl_green data.version)
      (tpl_green "✔"))
  else
    match (compat.lookup data.name).getD ["n/a"] with
    | [] => none
    | v :: _ =>
      some (get_row type name data.name (tpl_red data.version) ("--> " ++ v))

/-- The normalisation loop of `validate`: every version list of every
sub-map of the fetched table is mapped through `reformat_version`
(the keys are untouched). -/
def normalize_compat (compat : List (String × List (String × List String))) :
    List (String × List (String × List String)) :=
  compat.map fun p => (p.1, p.2.map fun q => (q.1, q.2.map reformat_version))

/-- The `all_models` accumulation of `validate`: the model names (keys)
of every sub-map, across all spaCy versions. -/
def all_model_names (compat : List (String × List (String × List String))) :
    List String :=
  (compat.map fun p => p.2.map Prod.fst).flatten

/-- `incompat_links` of `validate`: link names whose entry is
incompatible. -/
def incompat_links (model_links : List (String × Entry)) : List String :=
  model_links.filterMap fun ld => if ld.2.compat then none else some ld.1

/-- `incompat_models` of `validate`: the model names of incompatible
packages together with those of incompatible links (a Python set; here a
list whose membership is that set). -/
def incompat_models (model_pkgs model_links : List (String × Entry)) : List String :=
  (model_pkgs.filterMap fun pd => if pd.2.compat then none else some pd.2.name)
    ++ (model_links.filterMap fun ld => if ld.2.compat then none else some ld.2.name)

/-- `na_models` of `validate`: incompatible model names that are not keys
of the current-version sub-map. -/
def na_models (current_compat : List (String × List String)) (ms : List String) :
    List String :=
  ms.filter fun m => (current_compat.lookup m).isNone

/-- `update_models` of `validate`: incompatible model names that are keys
of the current-version sub-map. -/
def update_models (current_compat : List (String × List String)) (ms : List String) :
    List String :=
  ms.filter fun m => (current_compat.lookup m).isSome

/-- The data of the full report that `validate` prints when at least one
model was found: rendered table rows (packages first, then links; a `none`
row is a row whose rendering raises), and the three classification lists. -/
structure Report where
  rows : List (Option String)
  updateList : List String
  naList : List String
  incompatLinkList : List String
deriving DecidableEq

/-- How a run of the `validate` command ends.  `serverError` and `noModels`
go through `prints(..., exits=n)` (modelled from the spec: a titled message
is printed and the process exits); `keyError` is an uncaught Python
`KeyError` from `compat[about.__version__]`; `report` is normal completion
after printing the table. -/
inductive Outcome where
  | serverError (code : Nat)
  | keyError
  | noModels
  | report (r : Report)
deriving DecidableEq

/-- The process exit code of an outcome: 1 for the fetch failure, 0 for the
handled exits and normal completion, none (abnormal termination) for the
uncaught `KeyError`. -/
def Outcome.exitCode : Outcome → Option Nat
  | .serverError _ => some 1
  | .keyError => none
  | .noModels => some 0
  | .report _ => some 0

/-- Whether the failure (if any) is handled by an explicit code path:
`serverError` and `noModels` are explicit `prints(..., exits=n)` calls,
while `keyError` is an uncaught exception with no handling in the source. -/
def Outcome.isHandled : Outcome → Bool
  | .keyError => false
  | _ => true

/-- The title of the message printed for the outcome, when one is. -/
def Outcome.title : Outcome → Option String
  | .serverError code => some ("Server error (" ++ toString code ++ ")")
  | _ => none

/-- The report data of the outcome, when the run printed a table. -/
def Outcome.reportData : Outcome → Option Report
  | .report r => some r
  | _ => none

/-- The inputs of one run of `validate`: the HTTP status of the fetch, the
decoded `spacy` field of its JSON body, the running spaCy version
(`about.__version__`), the data directory listing (`none` when
`get_data_path()` is falsy) and the installed-package registry. -/
structure ValidateInput where
  status_code : Nat
  compat : List (String × List (String × List String))
  spacy_version : String
  data_path : Option (List PathEntry)
  working_set : List (String × String)
deriving DecidableEq

/-- `validate` from `validate.py`, as a function from its explicit inputs
to how the run ends. -/
def validate (inp : ValidateInput) : Outcome :=
  if inp.status_code ≠ 200 then .serverError inp.status_code
  else
    let compat := normalize_compat inp.compat
    let all_models := all_model_names inp.compat
    match compat.lookup inp.spacy_version with
    | none => .keyError
    | some current_compat =>
      let model_links := get_model_links current_compat inp.data_path
      let model_pkgs := get_model_pkgs current_compat all_models inp.working_set
      let ms := incompat_models model_pkgs model_links
      if model_links.isEmpty && model_pkgs.isEmpty then .noModels
      else .report
        { rows :=
            (model_pkgs.map fun pd => get_model_row current_compat pd.1 pd.2 "package")
              ++ (model_links.map fun ld => get_model_row current_compat ld.1 ld.2 "link"),
          updateList := update_models current_compat ms,
          naList := na_models current_compat ms,
          incompatLinkList := incompat_links model_links }

/-! ### Supporting lemmas -/

theorem replaceAllGo_of_not_containsSub (old new : List Char) :
    ∀ (s : List Char), containsSub old s = false →
      ∀ fuel, replaceAllGo old new fuel s = s := by
  intro s
  induction s with
  | nil =>
    intro _ fuel
    cases fuel <;> rfl
  | cons c rest ih =>
    intro h fuel
    simp only [containsSub, Bool.or_eq_false_iff] at h
    cases fuel with
    | zero => rfl
    | succ fuel =>
      simp only [replaceAllGo, h.1, Bool.false_and, Bool.and_eq_true, if_neg,
        Bool.false_eq_true, not_false_iff, ih h.2 fuel]

theorem replaceAll_of_not_containsSub (old new s : String)
    (h : strContainsSub s old = false) : replaceAll old new s = s := by
  cases s with
  | mk data =>
    simp only [replaceAll]
    exact congrArg String.mk
      (replaceAllGo_of_not_containsSub old.data new.data data h data.length)

theorem reformat_version_of_not_containsSub (v : String)
    (h : strContainsSub v "-alpha" = false) : reformat_version v = v := by
  unfold reformat_version
  by_cases he : strEndsWith v "-alpha" <;>
    simp only [he, if_true, if_false, Bool.false_eq_true,
      replaceAll_of_not_containsSub _ _ _ h]

theorem lookup_map_snd {α β : Type} (f : α → β) (l : List (String × α)) (k : String) :
    (l.map fun p => (p.1, f p.2)).lookup k = (l.lookup k).map f := by
  induction l with
  | nil => rfl
  | cons p t ih =>
    simp only [List.map_cons, List.lookup]
    cases k == p.1 <;> simp [ih]

theorem normalize_compat_lookup (compat : List (String × List (String × List String)))
    (k : String) :
    (normalize_compat compat).lookup k =
      (compat.lookup k).map fun models => models.map fun q => (q.1, q.2.map reformat_version) := by
  exact lookup_map_snd _ compat k

/-! ### The claims -/

/-- C1: `is_compat compat name version` is true iff `name` is a key of the
sub-map and `version` is an element of the list stored under `name`; so it
is true exactly for the listed (model, version) pairs and false for any
version not listed under a model. -/
theorem c1_is_compat_iff (compat : List (String × List String)) (name version : String) :
    is_compat compat name version = true ↔
      ∃ vs, compat.lookup name = some vs ∧ version ∈ vs := by
  unfold is_compat
  cases h : compat.lookup name <;> simp [h]

/-- C1 witness: the listed pair (`en_core_web_sm`, `2.0.0`) is reported
compatible. -/
theorem c1_is_compat_iff_witness :
    is_compat [("en_core_web_sm", ["2.0.0"])] "en_core_web_sm" "2.0.0" = true :=
  (c1_is_compat_iff [("en_core_web_sm", ["2.0.0"])] "en_core_web_sm" "2.0.0").mpr
    ⟨["2.0.0"], by decide, by decide⟩

/-- C2: every model name classified incompatible lands in exactly one of the
two lists: in `na_models` iff it is not a key of the current-version
sub-map, and in `update_models` iff it is a key. -/
theorem c2_na_update_partition (cc : List (String × List String))
    (model_pkgs model_links : List (String × Entry)) (m : String)
    (hm : m ∈ incompat_models model_pkgs model_links) :
    ((cc.lookup m).isNone →
        m ∈ na_models cc (incompat_models model_pkgs model_links) ∧
        m ∉ update_models cc (incompat_models model_pkgs model_links)) ∧
    ((cc.lookup m).isSome →
        m ∈ update_models cc (incompat_models model_pkgs model_links) ∧
        m ∉ na_models cc (incompat_models model_pkgs model_links)) := by
  cases hcc : cc.lookup m <;>
    simp [na_models, update_models, List.mem_filter, hm, hcc]

/-- C2 witness: with current sub-map `[("a", ["1"])]` and one incompatible
package entry named `a`, the name `a` is in `update_models` and not in
`na_models`. -/
theorem c2_na_update_partition_witness :
    "a" ∈ update_models [("a", ["1"])]
        (incompat_models [("pkg-a", ⟨"a", "0", false⟩)] []) ∧
    "a" ∉ na_models [("a", ["1"])]
        (incompat_models [("pkg-a", ⟨"a", "0", false⟩)] []) :=
  (c2_na_update_partition [("a", ["1"])] [("pkg-a", ⟨"a", "0", false⟩)] [] "a"
    (by decide)).2 (by decide)

/-- C3: if the input ends with `-alpha` then `reformat_version` replaces
every occurrence of `-alpha` with `a0`, otherwise it replaces every
occurrence with `a`; a string containing no `-alpha` comes back unchanged;
the transform is a total function. -/
theorem c3_reformat_version_cases (v : String) :
    (strEndsWith v "-alpha" = true →
        reformat_version v = replaceAll "-alpha" "a0" v) ∧
    (strEndsWith v "-alpha" = false →
        reformat_version v = replaceAll "-alpha" "a" v) ∧
    (strContainsSub v "-alpha" = false → reformat_version v = v) := by
  refine ⟨fun h => ?_, fun h => ?_, fun h => reformat_version_of_not_containsSub v h⟩
  · simp [reformat_version, h]
  · simp [reformat_version, h]

/-- C3 witness: `0.1.0-alpha` ends with `-alpha` and is rewritten by the
`a0` replacement, concretely to `0.1.0a0`. -/
theorem c3_reformat_version_cases_witness :
    reformat_version "0.1.0-alpha" = replaceAll "-alpha" "a0" "0.1.0-alpha" ∧
    reformat_version "0.1.0-alpha" = "0.1.0a0" :=
  ⟨(c3_reformat_version_cases "0.1.0-alpha").1 (by decide), by decide⟩

/-- C4 counterexample: `reformat_version` is not idempotent.  On
`1.0-alph-alpha` the first pass yields `1.0-alpha0` (the replacement
creates a fresh `-alpha` occurrence) and the second pass yields `1.0a0`. -/
theorem c4_not_idempotent_counterexample :
    reformat_version (reformat_version "1.0-alph-alpha") ≠
      reformat_version "1.0-alph-alpha" := by
  decide

/-- C4 amended: `reformat_version` is idempotent on every input whose
image contains no occurrence of `-alpha` (in particular on every string it
leaves unchanged); it is not idempotent in general. -/
theorem c4_idempotent_when_no_alpha_left (v : String)
    (h : strContainsSub (reformat_version v) "-alpha" = false) :
    reformat_version (reformat_version v) = reformat_version v :=
  reformat_version_of_not_containsSub (reformat_version v) h

/-- C4 witness: on `1.0-alpha` the normalized form `1.0a0` has no `-alpha`
left, and normalizing again returns it unchanged. -/
theorem c4_idempotent_when_no_alpha_left_witness :
    reformat_version (reformat_version "1.0-alpha") = reformat_version "1.0-alpha" :=
  c4_idempotent_when_no_alpha_left "1.0-alpha" (by decide)

/-- C5 counterexample: with a successful fetch whose table lacks the active
spaCy version (`1.9.0` not a key), `validate` ends in the uncaught
`KeyError`, which no explicit code path handles — not in an explicitly
raised, handled format error. -/
theorem c5_keyerror_counterexample :
    validate
        { status_code := 200,
          compat := [("2.0.0", [("en_core_web_sm", ["2.0.0"])])],
          spacy_version := "1.9.0",
          data_path := none,
          working_set := [] } = Outcome.keyError ∧
      Outcome.isHandled Outcome.keyError = false := by
  constructor <;> decide

/-- C5 amended: if the fetch succeeds and the active host version is absent
as a key of the decoded matrix, the command fails with an uncaught
`KeyError` (an unhandled lookup failure, with no exit code), not a handled
explicitly raised error. -/
theorem c5_missing_version_keyerror (inp : ValidateInput)
    (h200 : inp.status_code = 200)
    (hk : inp.compat.lookup inp.spacy_version = none) :
    validate inp = Outcome.keyError ∧
      Outcome.isHandled (validate inp) = false ∧
      Outcome.exitCode (validate inp) = none := by
  have hv : validate inp = Outcome.keyError := by
    unfold validate
    rw [if_neg (by simp [h200])]
    simp only [normalize_compat_lookup, hk]
    rfl
  exact ⟨hv, by rw [hv]; rfl, by rw [hv]; rfl⟩

/-- C5 witness: a concrete run with host version `1.9.0` absent from the
table ends in the uncaught `KeyError` with no exit code. -/
theorem c5_missing_version_keyerror_witness :
    validate
        { status_code := 200,
          compat := [("2.0.0", [("en_core_web_sm", ["2.0.0"])])],
          spacy_version := "1.9.0",
          data_path := some [],
          working_set := [("spacy", "1.9.0")] } = Outcome.keyError :=
  (c5_missing_version_keyerror
    { status_code := 200,
      compat := [("2.0.0", [("en_core_web_sm", ["2.0.0"])])],
      spacy_version := "1.9.0",
      data_path := some [],
      working_set := [("spacy", "1.9.0")] } (by decide) (by decide)).1

/-- C6: for every response status other than 200, `validate` ends in the
titled server-error message and exit code 1, with no report (no matrix
build, no scanning, no table), and there is no retry — the outcome is
fully determined by the status code. -/
theorem c6_server_error (inp : ValidateInput) (h : inp.status_code ≠ 200) :
    validate inp = Outcome.serverError inp.status_code ∧
      Outcome.exitCode (validate inp) = some 1 ∧
      Outcome.title (validate inp) =
        some ("Server error (" ++ toString inp.status_code ++ ")") ∧
      Outcome.reportData (validate inp) = none := by
  have hv : validate inp = Outcome.serverError inp.status_code := by
    unfold validate
    rw [if_pos h]
  exact ⟨hv, by rw [hv]; rfl, by rw [hv]; rfl, by rw [hv]; rfl⟩

/-- C6 witness: a 404 response ends the run with exit code 1 and the title
`Server error (404)`, with no report. -/
theorem c6_server_error_witness :
    validate
        { status_code := 404,
          compat := [("2.0.0", [("en_core_web_sm", ["2.0.0"])])],
          spacy_version := "2.0.0",
          data_path := none,
          working_set := [("en-core-web-sm", "2.0.0")] } = Outcome.serverError 404 :=
  (c6_server_error
    { status_code := 404,
      compat := [("2.0.0", [("en_core_web_sm", ["2.0.0"])])],
      spacy_version := "2.0.0",
      data_path := none,
      working_set := [("en-core-web-sm", "2.0.0")] } (by decide)).1

/-- C7: the link scanner is total over filesystem states: a missing data
directory yields the empty mapping, and an entry is produced exactly for the
model directories that have a metadata file — one whose key is the directory
name, whose model name is `lang ++ "_" ++ name` from the metadata, and whose
compatibility is the matrix lookup; directories without metadata produce
nothing. -/
theorem c7_get_model_links_total (compat : List (String × List String)) :
    get_model_links compat none = [] ∧
    ∀ (ps : List PathEntry) (link : String) (e : Entry),
      (link, e) ∈ get_model_links compat (some ps) ↔
        ∃ p, p ∈ ps ∧ is_model_path p = true ∧
          ∃ m, p.meta = some m ∧ link = p.name ∧
            e = { name := m.lang ++ "_" ++ m.name, version := m.version,
                  compat := is_compat compat (m.lang ++ "_" ++ m.name) m.version } := by
  refine ⟨rfl, fun ps link e => ?_⟩
  simp only [get_model_links, List.mem_filterMap, List.mem_filter]
  constructor
  · rintro ⟨p, ⟨hp, hmp⟩, hf⟩
    cases hm : p.meta with
    | none => rw [hm] at hf; exact absurd hf (by simp)
    | some m =>
      rw [hm] at hf
      simp only [Option.some.injEq, Prod.mk.injEq] at hf
      exact ⟨p, hp, hmp, m, hm, hf.1.symm, hf.2.symm⟩
  · rintro ⟨p, hp, hmp, m, hm, hl, he⟩
    exact ⟨p, ⟨hp, hmp⟩, by rw [hm]; simp [hl, he]⟩

/-- C7 witness: a data directory with one model directory carrying metadata
(lang `en`, name `core`, version `2.0.0`) yields exactly its link entry. -/
theorem c7_get_model_links_total_witness :
    ("en", (⟨"en_core", "2.0.0", true⟩ : Entry)) ∈
      get_model_links [("en_core", ["2.0.0"])]
        (some [{ name := "en", isDir := true, meta := some ⟨"en", "core", "2.0.0"⟩ }]) :=
  ((c7_get_model_links_total [("en_core", ["2.0.0"])]).2 _ "en" _).mpr
    ⟨{ name := "en", isDir := true, meta := some ⟨"en", "core", "2.0.0"⟩ },
      by decide, by decide, ⟨"en", "core", "2.0.0"⟩, rfl, rfl, by decide⟩

/-- C8: the package scanner keeps exactly the installed packages whose
name, with every hyphen replaced by an underscore, is a known model name;
each kept entry records the underscored name, the installed version, and
compatibility against the current sub-map. -/
theorem c8_get_model_pkgs_mem (compat : List (String × List String))
    (all_models : List String) (working_set : List (String × String))
    (pn : String) (e : Entry) :
    (pn, e) ∈ get_model_pkgs compat all_models working_set ↔
      ∃ v, (pn, v) ∈ working_set ∧
        all_models.contains (replaceAll "-" "_" pn) = true ∧
        e = { name := replaceAll "-" "_" pn, version := v,
              compat := is_compat compat (replaceAll "-" "_" pn) v } := by
  simp only [get_model_pkgs, List.mem_filterMap]
  constructor
  · rintro ⟨⟨n, v⟩, hin, hf⟩
    simp only at hf
    by_cases hc : all_models.contains (replaceAll "-" "_" n) = true
    · rw [if_pos hc] at hf
      simp only [Option.some.injEq, Prod.mk.injEq] at hf
      obtain ⟨hn, he⟩ := hf
      subst hn
      exact ⟨v, hin, hc, he.symm⟩
    · rw [if_neg hc] at hf
      exact absurd hf (by simp)
  · rintro ⟨v, hin, hc, he⟩
    exact ⟨(pn, v), hin, by simp only; rw [if_pos hc]; simp [he]⟩

/-- C8 witness: the installed package `en-core-web-sm` at `2.0.0` is kept,
under the underscored model name, as a compatible entry. -/
theorem c8_get_model_pkgs_mem_witness :
    ("en-core-web-sm", (⟨"en_core_web_sm", "2.0.0", true⟩ : Entry)) ∈
      get_model_pkgs [("en_core_web_sm", ["2.0.0"])] ["en_core_web_sm"]
        [("en-core-web-sm", "2.0.0")] :=
  (c8_get_model_pkgs_mem [("en_core_web_sm", ["2.0.0"])] ["en_core_web_sm"]
      [("en-core-web-sm", "2.0.0")] "en-core-web-sm" ⟨"en_core_web_sm", "2.0.0", true⟩).mpr
    ⟨"2.0.0", by decide, by decide, by decide⟩

/-- C9: when both scanner outputs are empty, the run ends in the
`no models found` message with exit code 0 and no report (no table rows,
no update suggestions, no unavailability notice, no link hint). -/
theorem c9_no_models (inp : ValidateInput) (cc : List (String × List String))
    (h200 : inp.status_code = 200)
    (hk : (normalize_compat inp.compat).lookup inp.spacy_version = some cc)
    (hlinks : get_model_links cc inp.data_path = [])
    (hpkgs : get_model_pkgs cc (all_model_names inp.compat) inp.working_set = []) :
    validate inp = Outcome.noModels ∧
      Outcome.exitCode (validate inp) = some 0 ∧
      Outcome.reportData (validate inp) = none := by
  have hv : validate inp = Outcome.noModels := by
    unfold validate
    rw [if_neg (by simp [h200])]
    simp [hk, hlinks, hpkgs]
  exact ⟨hv, by rw [hv]; rfl, by rw [hv]; rfl⟩

/-- C9 witness: a concrete run with a matching host version, an absent data
directory and no matching installed packages ends in `noModels`. -/
theorem c9_no_models_witness :
    validate
        { status_code := 200,
          compat := [("2.0.0", [("en_core_web_sm", ["2.0.0"])])],
          spacy_version := "2.0.0",
          data_path := none,
          working_set := [("numpy", "1.14.0")] } = Outcome.noModels :=
  (c9_no_models
    { status_code := 200,
      compat := [("2.0.0", [("en_core_web_sm", ["2.0.0"])])],
      spacy_version := "2.0.0",
      data_path := none,
      working_set := [("numpy", "1.14.0")] }
    [("en_core_web_sm", ["2.0.0"])]
    (by decide) (by decide) (by decide) (by decide)).1

/-- C10: rendering a row for an incompatible entry is partial in the hint
column: it yields the `n/a` hint when the model name is absent from the
sub-map, the first listed version when the list is non-empty, and fails
(the `[0]` index raises) when the name maps to an empty list. -/
theorem c10_get_model_row_hint_cases (compat : List (String × List String))
    (name : String) (data : Entry) (ty : String) (h : data.compat = false) :
    (compat.lookup data.name = none →
        get_model_row compat name data ty =
          some (get_row ty name data.name (tpl_red data.version) ("--> " ++ "n/a"))) ∧
    (∀ v vs, compat.lookup data.name = some (v :: vs) →
        get_model_row compat name data ty =
          some (get_row ty name data.name (tpl_red data.version) ("--> " ++ v))) ∧
    (compat.lookup data.name = some [] →
        get_model_row compat name data ty = none) := by
  refine ⟨fun hl => ?_, fun v vs hl => ?_, fun hl => ?_⟩ <;>
    simp [get_model_row, h, hl]

/-- C10 witness: concretely, with sub-map `[("m", [])]` the incompatible row
for model `m` fails to render, while with `m` absent it renders the `n/a`
hint. -/
theorem c10_get_model_row_hint_cases_witness :
    get_model_row [("m", [])] "pkg" ⟨"m", "1.0.0", false⟩ "package" = none ∧
    get_model_row [] "pkg" ⟨"m", "1.0.0", false⟩ "package" =
      some (get_row "package" "pkg" "m" (tpl_red "1.0.0") ("--> " ++ "n/a")) :=
  ⟨(c10_get_model_row_hint_cases [("m", [])] "pkg" ⟨"m", "1.0.0", false⟩ "package"
      (by decide)).2.2 (by decide),
   (c10_get_model_row_hint_cases [] "pkg" ⟨"m", "1.0.0", false⟩ "package"
      (by decide)).1 (by decide)⟩

end SpacyValidate
